import Mathlib

/-!
Verification of the event-detection and deduplication engine of `bot.py`
(cricket live-score monitor).  The engine is the function
`fetch_match_update`: it parses a score snapshot, loads the persisted
per-match state row, detects a cold start, runs a priority cascade of
event checks gated by a persisted ledger of emitted event ids, and
persists the new state.

The embedding below models the pure classification core of that
function.  Network fetching, HTML parsing and message formatting are
outside the model: a `Snapshot` starts where the parsed fields of the
code start (runs, wickets, overs string, status text, commentary text),
and an emitted event is modelled by its kind and its ledger id, which is
all the dedup logic ever consults.  Floating point `overs` values are
modelled by exact rationals; the values reachable from the parsed
one-decimal overs notation are exactly representable, and all threshold
comparisons in the code involve integer or half-integer constants, so
the rational model agrees with the float code away from ties that the
one-decimal grid cannot produce.
-/

namespace CricketBot

/-! ## Generic string helpers (Python `in`, substring containment) -/

/-- Is `needle` a prefix of `hay` (character lists)? -/
def prefixMatch : List Char → List Char → Bool
  | [], _ => true
  | _ :: _, [] => false
  | a :: as, b :: bs => a == b && prefixMatch as bs

/-- Does `needle` occur contiguously inside `hay`?  Models the Python
`needle in hay` test on strings. -/
def containsSeq (needle : List Char) : List Char → Bool
  | [] => needle.isEmpty
  | c :: rest => prefixMatch needle (c :: rest) || containsSeq needle rest

/-- Python `needle in hay` for `String`. -/
def containsSub (hay needle : String) : Bool :=
  containsSeq needle.data hay.data

/-- Python `s.lower()`.  The code only ever compares lowered text
against ASCII phrase lists, for which per-character lowering agrees
with the Python semantics. -/
def strLower (s : String) : String :=
  String.mk (s.data.map Char.toLower)

/-- Python `s.upper()`, used for the `"T20" in match_name.upper()` and
`"ODI" in match_name.upper()` format tests. -/
def strUpper (s : String) : String :=
  String.mk (s.data.map Char.toUpper)

/-- Numeric value of a digit list, most significant first. -/
def natOfDigits (ds : List Char) : Nat :=
  ds.foldl (fun a c => a * 10 + (c.toNat - 48)) 0

/-- The whitespace characters removed by Python `str.strip()`. -/
def isStripChar (c : Char) : Bool :=
  c = ' ' || c = '\t' || c = '\n' || c = '\r' || c.toNat = 11 || c.toNat = 12

/-- Python `s.strip()` on a character list. -/
def stripChars (cs : List Char) : List Char :=
  ((cs.dropWhile isStripChar).reverse.dropWhile isStripChar).reverse

/-! ## `overs_to_balls` (bot.py lines 171-180)

```python
def overs_to_balls(overs):
    if not overs:
        return 0
    m = re.match(r"^(\d+)(?:\.(\d))?$", overs.strip())
    if not m:
        return 0
    whole = int(m.group(1))
    balls = int(m.group(2) or 0)
    balls = min(max(balls, 0), 5)
    return whole * 6 + balls
```
-/

/-- Parse of the anchored pattern: one or more digits, optionally
followed by a dot and exactly one digit, and nothing else.  Returns the
whole-unit count and the single fractional digit (0 when absent). -/
def oversPatternParse (cs : List Char) : Option (Nat × Nat) :=
  let ds := cs.takeWhile Char.isDigit
  let rest := cs.dropWhile Char.isDigit
  if ds.isEmpty then none
  else
    match rest with
    | [] => some (natOfDigits ds, 0)
    | ['.', d] => if d.isDigit then some (natOfDigits ds, d.toNat - 48) else none
    | _ => none

/-- `overs_to_balls`: the progress-unit converter.  Malformed input
yields 0; the fractional digit is clamped into `[0,5]`. -/
def overs_to_balls (overs : String) : Nat :=
  if overs = "" then 0
  else
    match oversPatternParse (stripChars overs.data) with
    | none => 0
    | some (w, b) => w * 6 + min (max b 0) 5

/-- The regex `^\d+(\.\d)?$` as a proposition on a character list:
either all digits (nonempty), or digits followed by a dot and one
digit. -/
def OversPattern (cs : List Char) : Prop :=
  (cs ≠ [] ∧ cs.all Char.isDigit) ∨
    (∃ ds d, ds ≠ [] ∧ ds.all Char.isDigit ∧ d.isDigit ∧ cs = ds ++ ['.', d])

/-! ## Python float parsing of the raw overs string (bot.py line 541)

```python
cur_overs = float(overs_raw) if overs_raw.replace(".", "", 1).isdigit() else 0.0
```

The guard accepts exactly the strings that are nonempty and all digits
after removal of the first dot; on those, `float` reads the decimal
value.  We keep the value exact in `ℚ`.
-/

/-- Remove the first `.` of a character list, as Python
`s.replace(".", "", 1)`. -/
def removeFirstDot : List Char → List Char
  | [] => []
  | c :: rest => if c = '.' then rest else c :: removeFirstDot rest

/-- Model of `float(overs_raw) if overs_raw.replace(".","",1).isdigit()
else 0.0`, kept exact as a rational. -/
def pyFloatOvers (s : String) : ℚ :=
  let cs := s.data
  let stripped := removeFirstDot cs
  if stripped.isEmpty || !stripped.all Char.isDigit then 0
  else
    let intPart := cs.takeWhile (fun c => c ≠ '.')
    let fracPart := (cs.dropWhile (fun c => c ≠ '.')).drop 1
    (natOfDigits intPart : ℚ) + (natOfDigits fracPart : ℚ) / ((10 : ℚ) ^ fracPart.length)

/-- Model of `overs_to_balls(str(last_wk_ov))` (bot.py line 660), where
`last_wk_ov` is a float stored earlier from a parsed overs string.
Python `str` of such a float prints its shortest decimal form: a value
on the one-decimal grid prints as `w.d` and converts to `w*6 + min d
5`; a negative value prints with a minus sign and fails the overs
pattern; a value off the one-decimal grid prints with two or more
fractional digits and also fails the pattern, yielding 0. -/
def ballsOfStoredOvers (q : ℚ) : Nat :=
  if q < 0 then 0
  else if (q * 10).den = 1 then
    let n := (q * 10).num.toNat
    (n / 10) * 6 + min (n % 10) 5
  else 0

/-! ## `stable_event_suffix` (bot.py lines 182-183)

```python
def stable_event_suffix(text):
    return hashlib.sha1(text.encode("utf-8")).hexdigest()[:10]
```

A full executable SHA-1 over the UTF-8 bytes of the text, producing the
first ten hex digest characters.  The claims never depend on concrete
digest values, only on the suffix being a deterministic function of the
text, but the hash is embedded faithfully. -/

/-- UTF-8 encoding of one character, as byte values. -/
def utf8Char (c : Char) : List Nat :=
  let n := c.toNat
  if n < 128 then [n]
  else if n < 2048 then [192 + n / 64, 128 + n % 64]
  else if n < 65536 then [224 + n / 4096, 128 + (n / 64) % 64, 128 + n % 64]
  else [240 + n / 262144, 128 + (n / 4096) % 64, 128 + (n / 64) % 64, 128 + n % 64]

/-- Python `text.encode("utf-8")` as a byte list. -/
def utf8Encode (s : String) : List Nat :=
  s.data.foldr (fun c acc => utf8Char c ++ acc) []

/-- Truncation to 32 bits. -/
def w32 (n : Nat) : Nat := n % 4294967296

/-- 32-bit left rotation. -/
def rotl32 (k x : Nat) : Nat := w32 ((x <<< k) ||| (x >>> (32 - k)))

/-- SHA-1 padding: append `0x80`, zero bytes to 56 mod 64, then the
bit length as eight big-endian bytes. -/
def sha1PadBytes (msg : List Nat) : List Nat :=
  let len := msg.length
  let zeros := (119 - len % 64) % 64
  msg ++ 128 :: List.replicate zeros 0 ++
    (List.range 8).map (fun i => (len * 8) >>> ((7 - i) * 8) % 256)

/-- Big-endian 32-bit words from a byte list. -/
def beWords : List Nat → List Nat
  | b0 :: b1 :: b2 :: b3 :: rest => (((b0 * 256 + b1) * 256 + b2) * 256 + b3) :: beWords rest
  | _ => []

/-- One step of the SHA-1 message-schedule extension. -/
def sha1ExtendStep (acc : List Nat) : List Nat :=
  let n := acc.length
  acc ++ [rotl32 1 ((((acc.getD (n - 3) 0) ^^^ (acc.getD (n - 8) 0)) ^^^
      (acc.getD (n - 14) 0)) ^^^ (acc.getD (n - 16) 0))]

/-- Extend a 16-word chunk to the 80-word schedule. -/
def sha1Schedule (chunk : List Nat) : List Nat :=
  (List.range 64).foldl (fun acc _ => sha1ExtendStep acc) chunk

/-- SHA-1 round function. -/
def sha1F (t b c d : Nat) : Nat :=
  if t < 20 then (b &&& c) ||| ((4294967295 ^^^ b) &&& d)
  else if t < 40 then (b ^^^ c) ^^^ d
  else if t < 60 then ((b &&& c) ||| (b &&& d)) ||| (c &&& d)
  else (b ^^^ c) ^^^ d

/-- SHA-1 round constants. -/
def sha1K (t : Nat) : Nat :=
  if t < 20 then 1518500249
  else if t < 40 then 1859775393
  else if t < 60 then 2400959708
  else 3395469782

/-- The five 32-bit words of SHA-1 working state. -/
structure Sha1State where
  a : Nat
  b : Nat
  c : Nat
  d : Nat
  e : Nat

/-- Process one 16-word chunk. -/
def sha1Rounds (chunk : List Nat) (h : Sha1State) : Sha1State :=
  let ws := sha1Schedule chunk
  let f := (List.range 80).foldl
    (fun st t =>
      let temp := w32 (rotl32 5 st.a + sha1F t st.b st.c st.d + st.e + sha1K t + ws.getD t 0)
      ⟨temp, st.a, rotl32 30 st.b, st.c, st.d⟩) h
  ⟨w32 (h.a + f.a), w32 (h.b + f.b), w32 (h.c + f.c), w32 (h.d + f.d), w32 (h.e + f.e)⟩

/-- Process all chunks; the fuel argument (one unit per word) keeps the
recursion structural so that concrete evaluation reduces. -/
def sha1Chunks : Nat → List Nat → Sha1State → Sha1State
  | 0, _, h => h
  | _ + 1, [], h => h
  | fuel + 1, w :: rest, h =>
      sha1Chunks fuel (rest.drop 15) (sha1Rounds ((w :: rest).take 16) h)

/-- Hex character of a nibble. -/
def hexChar (n : Nat) : Char :=
  if n < 10 then Char.ofNat (48 + n) else Char.ofNat (87 + n)

/-- Eight hex characters of a 32-bit word, most significant first. -/
def wordHex (w : Nat) : List Char :=
  (List.range 8).map (fun i => hexChar ((w >>> ((7 - i) * 4)) % 16))

/-- Full SHA-1 hex digest of a byte list. -/
def sha1Hex (msg : List Nat) : List Char :=
  let ws := beWords (sha1PadBytes msg)
  let h := sha1Chunks ws.length ws
    ⟨1732584193, 4023233417, 2562383102, 271733878, 3285377520⟩
  wordHex h.a ++ wordHex h.b ++ wordHex h.c ++ wordHex h.d ++ wordHex h.e

/-- `stable_event_suffix`: first ten hex characters of the SHA-1 of the
UTF-8 encoded text. -/
def stable_event_suffix (text : String) : String :=
  String.mk ((sha1Hex (utf8Encode text)).take 10)

/-! ## Phrase vocabularies and text predicates (bot.py lines 23, 197-199,
471-472, 584-586, 644, 670-671, 710, 714) -/

/-- `RESULT_PHRASES` (bot.py line 23). -/
def RESULT_PHRASES : List String :=
  ["won by", "win by", "match drawn", "match tied", "abandoned", "no result"]

/-- `is_result_text` (bot.py lines 197-199): any result phrase occurs in
the lowered text. -/
def is_result_text (text : String) : Bool :=
  RESULT_PHRASES.any (fun p => containsSub (strLower text) p)

/-- Break phrases of the innings-break test (bot.py line 585). -/
def breakPhrases : List String := ["innings break", "target", "stumps", "lunch", "tea"]

/-- Weather phrases of branch 3 (bot.py line 644). -/
def rainPhrases : List String := ["rain", "drizzle", "interrupted", "delayed", "covers"]

/-- Fifty keywords of step 6 (bot.py line 710). -/
def fiftyPhrases : List String :=
  ["fifty", "half-century", "half century", "50 runs", "reaches 50"]

/-- Century keywords of step 6 (bot.py line 714). -/
def centuryPhrases : List String :=
  ["century", "hundred", "100 runs", "reaches 100"]

/-! ## Data model -/

/-- The parsed per-poll snapshot of one match: the values
`fetch_match_update` extracts from the page before classification
begins.  `m_id` is the match identifier taken from the URL. -/
structure Snapshot where
  m_id : String
  match_name : String
  runs : Nat
  wickets : Nat
  overs_raw : String
  status_text : String
  commentary_text : String
deriving DecidableEq

/-- The persisted state row (table `state`, bot.py lines 38-40):
`last_over REAL, last_wickets INTEGER, toss_done INTEGER,
last_wicket_over REAL DEFAULT -10.0, innings INTEGER DEFAULT 1`. -/
structure MatchState where
  last_over : ℚ
  last_wickets : Nat
  toss_done : Nat
  last_wicket_over : ℚ
  innings : Nat
deriving DecidableEq

/-- The kind of an emitted update, one per emission site of
`fetch_match_update`.  The toss kind is emitted only by the separate
`fetch_toss_update` path, never by `fetch_match_update`. -/
inductive EventKind where
  | matchEnd
  | inningsBreak
  | weather
  | collapse
  | doubleStrike
  | overMilestone (threshold : Nat)
  | playerMilestone
  | toss
deriving DecidableEq

/-- An emitted event: its kind and the ledger id the emission was gated
on.  The human-oriented message text is presentation only and is not
modelled. -/
structure MatchEvent where
  kind : EventKind
  eid : String
deriving DecidableEq

/-- The observable outcome of one `fetch_match_update` call: the
emitted event if any (the code sends at most one message per call),
the state row as stored after the call (unchanged when the code path
writes nothing), the events ledger after the call, and whether the
call muted the match in `tracking_config`. -/
structure StepResult where
  emitted : Option MatchEvent
  state : MatchState
  events : List String
  muted : Bool
deriving DecidableEq

/-! ## Derived snapshot fields (bot.py lines 460-559) -/

/-- `status_lower = status_text.lower()` (bot.py line 471). -/
def status_lower (s : Snapshot) : String := strLower s.status_text

/-- `is_match_over = is_result_text(status_lower)` (bot.py line 472). -/
def is_match_over (s : Snapshot) : Bool := is_result_text (status_lower s)

/-- `cur_overs` (bot.py line 541): Python float of the raw overs text,
zero when the guard rejects it. -/
def cur_overs (s : Snapshot) : ℚ := pyFloatOvers s.overs_raw

/-- `cur_balls = overs_to_balls(overs_raw)` (bot.py line 542). -/
def cur_balls (s : Snapshot) : Nat := overs_to_balls s.overs_raw

/-- `event_text = status_text if status_text else commentary_text`
(bot.py line 558). -/
def event_text (s : Snapshot) : String :=
  if s.status_text = "" then s.commentary_text else s.status_text

/-- `event_lower = event_text.lower()` (bot.py line 559). -/
def event_lower (s : Snapshot) : String := strLower (event_text s)

/-- `is_innings_break` (bot.py lines 584-586): all wickets down without
a result, or a break phrase in the status line. -/
def is_innings_break (s : Snapshot) : Bool :=
  (s.wickets == 10 && !is_match_over s) ||
    breakPhrases.any (fun p => containsSub (status_lower s) p)

/-- The weather-branch condition (bot.py line 644). -/
def is_rain_status (s : Snapshot) : Bool :=
  rainPhrases.any (fun p => containsSub (status_lower s) p)

/-- `is_t20 = "T20" in match_name.upper()` (bot.py line 670). -/
def is_t20 (s : Snapshot) : Bool := containsSub (strUpper s.match_name) "T20"

/-- `is_odi = "ODI" in match_name.upper()` (bot.py line 671). -/
def is_odi (s : Snapshot) : Bool := containsSub (strUpper s.match_name) "ODI"

/-- The format-specific milestone list (bot.py lines 673-678). -/
def milestonesOf (s : Snapshot) : List Nat :=
  if is_t20 s then [6, 10, 15, 20]
  else if is_odi s then [10, 20, 30, 40, 50]
  else [10, 20, 30, 40, 50, 60, 70, 80, 90]

/-- Step-6 keyword test (bot.py lines 710-717): a fifty or a century
keyword occurs in the lowered event text. -/
def playerMilestoneKeyword (s : Snapshot) : Bool :=
  fiftyPhrases.any (fun p => containsSub (event_lower s) p) ||
    centuryPhrases.any (fun p => containsSub (event_lower s) p)

/-! ## Event identifiers (the dedup keys) -/

/-- `f"{m_id}_MATCH_END"` (bot.py line 625). -/
def matchEndEid (mid : String) : String := mid ++ "_MATCH_END"

/-- `f"{m_id}_INNINGS_BREAK_{runs}"` (bot.py line 637). -/
def inningsBreakEid (mid : String) (runs : Nat) : String :=
  mid ++ "_INNINGS_BREAK_" ++ toString runs

/-- `f"{m_id}_RAIN_{stable_event_suffix(status_text)}"` (bot.py line 645). -/
def rainEid (mid status : String) : String :=
  mid ++ "_RAIN_" ++ stable_event_suffix status

/-- `f"{m_id}_COLLAPSE_3WK"` (bot.py line 655): note that neither the
innings counter nor the run count appears in this id. -/
def collapseEid (mid : String) : String := mid ++ "_COLLAPSE_3WK"

/-- `f"{m_id}_DOUBLE_STRIKE_{wickets}"` (bot.py line 661): no innings
counter in this id either. -/
def doubleStrikeEid (mid : String) (w : Nat) : String :=
  mid ++ "_DOUBLE_STRIKE_" ++ toString w

/-- `f"{m_id}_OV_{passed_m}_{runs}_{current_innings}"` (bot.py line
687): this id does include the innings counter. -/
def overMilestoneEid (mid : String) (m runs innings : Nat) : String :=
  mid ++ "_OV_" ++ toString m ++ "_" ++ toString runs ++ "_" ++ toString innings

/-- `f"{m_id}_MILESTONE_{stable_event_suffix(event_text)}"` (bot.py
line 720). -/
def playerMilestoneEid (mid text : String) : String :=
  mid ++ "_MILESTONE_" ++ stable_event_suffix text

/-! ## Event ledger (table `events`, a set of fired ids) -/

/-- `SELECT 1 FROM events WHERE id=?` (the fired test). -/
def hasFired (led : List String) (eid : String) : Bool := led.contains eid

/-- `INSERT OR IGNORE INTO events VALUES (?)`: idempotent set
insertion, used by the cold-start seeding. -/
def markFired (led : List String) (eid : String) : List String :=
  if hasFired led eid then led else led ++ [eid]

/-- The check-then-insert idiom of every hot emission site: test the
ledger, and on a miss emit the event and insert its id (a plain
`INSERT`, safe because the check just ran). -/
def gate (led : List String) (e : MatchEvent) : Option MatchEvent × List String :=
  if hasFired led e.eid then (none, led) else (some e, led ++ [e.eid])

/-! ## The engine: `fetch_match_update` (bot.py lines 454-745)

The call is modelled from the point where the snapshot fields have been
parsed.  `row` is the loaded state row (`none` = no row = new match),
`led` is the events ledger, and the result collects every observable
effect: the emitted event, the state row after the call, the ledger
after the call, and the mute effect on `tracking_config`. -/

/-- The default state used when no row exists (bot.py line 571):
`(0.0, 0, 0, -10.0, 1)`. -/
def defaultState : MatchState :=
  { last_over := 0, last_wickets := 0, toss_done := 0, last_wicket_over := -10, innings := 1 }

/-- The native innings-switch detection (bot.py lines 578-582):

```python
if cur_overs < last_ov - 5:
    last_ov = 0.0
    last_wk = 0
    last_wk_ov = -10.0
    current_innings = 2
```
-/
def resetForSwitch (st : MatchState) (s : Snapshot) : MatchState :=
  if cur_overs s < st.last_over - 5 then
    { last_over := 0, last_wickets := 0, toss_done := st.toss_done,
      last_wicket_over := -10, innings := 2 }
  else st

/-- The cold-start path (bot.py lines 599-615): write the snapshot into
the state row, then silently seed the ledger with the match-end id, the
innings-break id and the collapse id when the snapshot already
satisfies those conditions; mute the match when it is already over;
emit nothing. -/
def coldStartUpdate (st1 : MatchState) (led : List String) (s : Snapshot) : StepResult :=
  let stW : MatchState :=
    { last_over := cur_overs s, last_wickets := s.wickets, toss_done := st1.toss_done,
      last_wicket_over := cur_overs s, innings := st1.innings }
  let led1 := if is_match_over s then markFired led (matchEndEid s.m_id) else led
  let led2 := if is_innings_break s then markFired led1 (inningsBreakEid s.m_id s.runs) else led1
  let led3 := if 3 ≤ s.wickets then markFired led2 (collapseEid s.m_id) else led2
  { emitted := none, state := stW, events := led3, muted := is_match_over s }

/-- Branch 4, the wicket logic (bot.py lines 652-666), entered when
`wickets > last_wk`: an early collapse when the third wicket falls
within six overs, else a double strike when the previous wicket fell
within six balls; either way `last_wk_ov` becomes `cur_overs`. -/
def wicketBranch (st1 : MatchState) (led : List String) (s : Snapshot) :
    Option MatchEvent × List String :=
  if s.wickets = 3 ∧ cur_overs s ≤ 6 ∧ st1.last_wickets < 3 then
    gate led { kind := .collapse, eid := collapseEid s.m_id }
  else if 0 < st1.last_wicket_over ∧
      |(cur_balls s : ℤ) - (ballsOfStoredOvers st1.last_wicket_over : ℤ)| ≤ 6 ∧
      1 < s.wickets then
    gate led { kind := .doubleStrike, eid := doubleStrikeEid s.m_id s.wickets }
  else (none, led)

/-- The straddle test of branch 5 (bot.py line 682):
`last_ov < m and cur_overs >= m`. -/
def straddles (lastOv cur : ℚ) (m : Nat) : Bool :=
  decide (lastOv < (m : ℚ)) && decide ((m : ℚ) ≤ cur)

/-- Branch 5, the over milestones (bot.py lines 668-698): the first
threshold of the format list straddled by `(last_ov, cur_overs]` fires,
gated on an id that carries the threshold, the run count and the
innings counter. -/
def milestoneBranch (st1 : MatchState) (led : List String) (s : Snapshot) :
    Option MatchEvent × List String :=
  match (milestonesOf s).find? (straddles st1.last_over (cur_overs s)) with
  | some m =>
      gate led { kind := .overMilestone m, eid := overMilestoneEid s.m_id m s.runs st1.innings }
  | none => (none, led)

/-- Step 6, the player milestones (bot.py lines 700-728), reached only
when no earlier branch produced a message: a fifty or century keyword
in the event text fires an id built from a hash of that text.  The
balls-faced parse only decorates the message prose and is not
modelled. -/
def playerMilestoneCheck (led : List String) (s : Snapshot) :
    Option MatchEvent × List String :=
  if playerMilestoneKeyword s then
    gate led { kind := .playerMilestone, eid := playerMilestoneEid s.m_id (event_text s) }
  else (none, led)

/-- Branches 2-5 of the strict event hierarchy (bot.py lines 636-698),
an `elif` chain entered only when the match is not over: innings break,
then weather, then wickets, then over milestones.  Returns the
candidate event, the ledger, and the value `last_wk_ov` holds after the
chain (updated to `cur_overs` exactly when the wicket branch was
entered). -/
def hotCascade (st1 : MatchState) (led : List String) (s : Snapshot) :
    Option MatchEvent × List String × ℚ :=
  if is_innings_break s then
    ((gate led { kind := .inningsBreak, eid := inningsBreakEid s.m_id s.runs }).1,
     (gate led { kind := .inningsBreak, eid := inningsBreakEid s.m_id s.runs }).2,
     st1.last_wicket_over)
  else if is_rain_status s then
    ((gate led { kind := .weather, eid := rainEid s.m_id s.status_text }).1,
     (gate led { kind := .weather, eid := rainEid s.m_id s.status_text }).2,
     st1.last_wicket_over)
  else if st1.last_wickets < s.wickets then
    ((wicketBranch st1 led s).1, (wicketBranch st1 led s).2, cur_overs s)
  else
    ((milestoneBranch st1 led s).1, (milestoneBranch st1 led s).2, st1.last_wicket_over)

/-- Step 6 runs only when the cascade produced no message (bot.py line
701 `if not msg:`). -/
def afterCascade (evA : Option MatchEvent) (ledA : List String) (s : Snapshot) :
    Option MatchEvent × List String :=
  match evA with
  | some e => (some e, ledA)
  | none => playerMilestoneCheck ledA s

/-- One full `fetch_match_update` call over the parsed snapshot.

* New match (no state row): the cold-start path seeds state and ledger
  and emits nothing.
* Match over (branch 1, bot.py lines 624-633): the match-end event is
  gated and the function returns immediately, so the state row is not
  rewritten; firing also mutes the match.
* Otherwise branches 2-6 run, and the state row is rewritten with
  `(cur_overs, wickets, toss_done, last_wk_ov, current_innings)`
  (bot.py lines 735-741). -/
def fetch_match_update (row : Option MatchState) (led : List String) (s : Snapshot) :
    StepResult :=
  match row with
  | none => coldStartUpdate (resetForSwitch defaultState s) led s
  | some stOrig =>
    if is_match_over s then
      { emitted := (gate led { kind := .matchEnd, eid := matchEndEid s.m_id }).1,
        state := stOrig,
        events := (gate led { kind := .matchEnd, eid := matchEndEid s.m_id }).2,
        muted := (gate led { kind := .matchEnd, eid := matchEndEid s.m_id }).1.isSome }
    else
      { emitted := (afterCascade (hotCascade (resetForSwitch stOrig s) led s).1
          (hotCascade (resetForSwitch stOrig s) led s).2.1 s).1,
        state := { last_over := cur_overs s, last_wickets := s.wickets,
                   toss_done := (resetForSwitch stOrig s).toss_done,
                   last_wicket_over := (hotCascade (resetForSwitch stOrig s) led s).2.2,
                   innings := (resetForSwitch stOrig s).innings },
        events := (afterCascade (hotCascade (resetForSwitch stOrig s) led s).1
          (hotCascade (resetForSwitch stOrig s) led s).2.1 s).2,
        muted := false }

/-- The driver loop over successive polls of one match (bot.py lines
757-775, restricted to one match): each call persists its state row and
ledger for the next call.  Returns the per-call emissions. -/
def runCalls (row : Option MatchState) (led : List String) :
    List Snapshot → List (Option MatchEvent)
  | [] => []
  | s :: rest =>
    let r := fetch_match_update row led s
    r.emitted :: runCalls (some r.state) r.events rest

/-- The within-phase state the innings switch resets to (bot.py lines
579-582), keeping only `toss_done`. -/
def innings_reset (st : MatchState) : MatchState :=
  { last_over := 0, last_wickets := 0, toss_done := st.toss_done,
    last_wicket_over := -10, innings := 2 }

/-- A snapshot stream whose progress never goes backwards, starting at
or above `q`: the normal shape of successive polls within one phase. -/
def oversMono (q : ℚ) : List Snapshot → Prop
  | [] => True
  | s :: rest => q ≤ cur_overs s ∧ oversMono (cur_overs s) rest

/-- The closed set of event kinds named by the specification:
WicketCollapse, DoubleStrike, MatchEnd, PhaseBreak, ProgressMilestone,
SecondaryMilestone, Toss.  Stated from the specification wording, for
comparison with what the code emits. -/
def specListedKind (k : EventKind) : Prop :=
  k = .collapse ∨ k = .doubleStrike ∨ k = .matchEnd ∨ k = .inningsBreak ∨
    (∃ m, k = .overMilestone m) ∨ k = .playerMilestone ∨ k = .toss

/-! ## Concrete instances used by counterexamples and witnesses -/

/-- State for the C1 counterexample: second wicket pending, previous
wicket at 3.0 overs. -/
def c1_state : MatchState := ⟨3, 1, 0, 3, 1⟩

/-- Snapshot for the C1 counterexample: a second wicket inside the
double-strike window whose commentary also carries a fifty keyword. -/
def c1_snapshot : Snapshot :=
  ⟨"m1", "England vs New Zealand, 1st ODI", 40, 2, "3.5", "",
    "Bowled him! He departs just after raising his fifty"⟩

/-- Snapshot for the C2 witness: cold start already past several
thresholds (five wickets, twelve overs of a T20, match not over). -/
def c2_snapshot : Snapshot := ⟨"w2", "India vs Pakistan, 2nd T20I", 80, 5, "12.0", "", ""⟩

/-- State for the C3 counterexample. -/
def c3_state : MatchState := ⟨8, 1, 0, 2, 1⟩

/-- Snapshot for the C3 counterexample: a new wicket together with an
innings-break status line. -/
def c3_snapshot : Snapshot :=
  ⟨"m3", "India vs Australia, 3rd Test", 120, 2, "9.0", "Innings Break", ""⟩

/-- Snapshot for the C3 witness: a plain second wicket, no status. -/
def c3w_snapshot : Snapshot := ⟨"m3w", "England vs New Zealand, 1st ODI", 40, 2, "3.5", "", ""⟩

/-- State for the C3 witness. -/
def c3w_state : MatchState := ⟨3, 1, 0, 3, 1⟩

/-- State for the C4 counterexample: ten overs recorded. -/
def c4_state : MatchState := ⟨10, 2, 0, 4, 1⟩

/-- Snapshot for the C4 counterexample: progress exactly five whole
units below the stored progress. -/
def c4_snapshot : Snapshot := ⟨"m4", "India vs Australia, 3rd Test", 50, 2, "5.0", "", ""⟩

/-- Snapshot for the C4 witness: progress six whole units below the
stored progress, triggering the innings switch. -/
def c4w_snapshot : Snapshot := ⟨"m4w", "India vs Australia, 3rd Test", 10, 2, "4.0", "", ""⟩

/-- State for the C5 witness. -/
def c5_state : MatchState := ⟨9, 2, 0, 4, 1⟩

/-- Snapshot for the C5 witness: a result status line while the stored
and current progress straddle the 10-over threshold. -/
def c5_snapshot : Snapshot :=
  ⟨"m5", "India vs Australia, 3rd Test", 250, 6, "21.0", "Australia won by 5 wickets", ""⟩

/-- State for the C6 counterexample. -/
def c6_state : MatchState := ⟨9, 0, 0, -10, 1⟩

/-- Snapshot for the C6 counterexample: progress jumps across the 10
and 20 thresholds while a wicket also falls. -/
def c6_snapshot : Snapshot := ⟨"m6", "India vs Australia, 3rd Test", 80, 1, "21.0", "", ""⟩

/-- State for the first C6 witness instance. -/
def c6a_state : MatchState := ⟨9, 0, 0, -10, 1⟩

/-- Snapshot for the first C6 witness instance: same jump, no wicket. -/
def c6a_snapshot : Snapshot := ⟨"m6a", "India vs Australia, 3rd Test", 44, 0, "21.0", "", ""⟩

/-- State for the second C6 witness instance: already past 20 overs. -/
def c6b_state : MatchState := ⟨20, 0, 0, -10, 1⟩

/-- Snapshot for the second C6 witness instance. -/
def c6b_snapshot : Snapshot := ⟨"m6b", "India vs Australia, 3rd Test", 90, 0, "21.0", "", ""⟩

/-- State for the C9 counterexample. -/
def c9_state : MatchState := ⟨3, 1, 0, 2, 1⟩

/-- Snapshot for the C9 counterexample: a rain interruption status. -/
def c9_snapshot : Snapshot :=
  ⟨"m9", "India vs Australia, 3rd Test", 40, 1, "4.0", "Rain stopped play", ""⟩

/-- State for the C10 sequence: fresh first innings. -/
def c10_state : MatchState := ⟨0, 0, 0, -10, 1⟩

/-- First C10 snapshot: third wicket at six overs of a T20 innings. -/
def c10_snapshotA : Snapshot := ⟨"mx", "India vs Pakistan, 2nd T20I", 30, 3, "6.0", "", ""⟩

/-- Second C10 snapshot: the second innings collapses to three wickets
inside half an over, after the phase switch. -/
def c10_snapshotC : Snapshot := ⟨"mx", "India vs Pakistan, 2nd T20I", 2, 3, "0.5", "", ""⟩

/-! ## Basic lemmas about the ledger, the gate and the parsed fields -/

theorem hasFired_iff (led : List String) (eid : String) :
    hasFired led eid = true ↔ eid ∈ led := by
  simp [hasFired, List.contains, List.elem_iff]

theorem pyFloatOvers_nonneg (x : String) : 0 ≤ pyFloatOvers x := by
  unfold pyFloatOvers
  dsimp only
  split
  · exact le_refl 0
  · positivity

theorem cur_overs_nonneg (s : Snapshot) : 0 ≤ cur_overs s :=
  pyFloatOvers_nonneg s.overs_raw

theorem mem_markFired (led : List String) (eid x : String) :
    x ∈ markFired led eid ↔ x ∈ led ∨ x = eid := by
  unfold markFired
  by_cases h : hasFired led eid = true
  · rw [if_pos h]
    have := (hasFired_iff led eid).mp h
    constructor
    · exact fun hx => Or.inl hx
    · rintro (hx | rfl) <;> [exact hx; exact this]
  · rw [if_neg h]
    simp [List.mem_append]

theorem markFired_mono (led : List String) (eid x : String) (h : x ∈ led) :
    x ∈ markFired led eid :=
  (mem_markFired led eid x).mpr (Or.inl h)

theorem self_mem_markFired (led : List String) (eid : String) :
    eid ∈ markFired led eid :=
  (mem_markFired led eid eid).mpr (Or.inr rfl)

theorem gate_fst_eq (led : List String) (e e2 : MatchEvent)
    (h : (gate led e).1 = some e2) : e2 = e := by
  unfold gate at h
  by_cases hf : hasFired led e.eid = true
  · rw [if_pos hf] at h; simp at h
  · rw [if_neg hf] at h; simp at h; exact h.symm

theorem gate_fresh (led : List String) (e e2 : MatchEvent)
    (h : (gate led e).1 = some e2) :
    e2.eid ∉ led ∧ e2.eid ∈ (gate led e).2 := by
  have he : e2 = e := gate_fst_eq led e e2 h
  subst he
  unfold gate at h ⊢
  by_cases hf : hasFired led e2.eid = true
  · rw [if_pos hf] at h; simp at h
  · rw [if_neg hf] at h ⊢
    refine ⟨fun hmem => hf ((hasFired_iff led e2.eid).mpr hmem), ?_⟩
    simp

theorem gate_mono (led : List String) (e : MatchEvent) (x : String) (h : x ∈ led) :
    x ∈ (gate led e).2 := by
  unfold gate
  by_cases hf : hasFired led e.eid = true
  · rw [if_pos hf]; exact h
  · rw [if_neg hf]; exact List.mem_append_left _ h

theorem gate_none_of_mem (led : List String) (e : MatchEvent) (h : e.eid ∈ led) :
    (gate led e).1 = none := by
  unfold gate
  rw [if_pos ((hasFired_iff led e.eid).mpr h)]

/-! ## Path lemmas for `fetch_match_update` -/

theorem fetch_none (led : List String) (s : Snapshot) :
    fetch_match_update none led s = coldStartUpdate (resetForSwitch defaultState s) led s :=
  rfl

theorem fetch_some_over (st : MatchState) (led : List String) (s : Snapshot)
    (h : is_match_over s = true) :
    fetch_match_update (some st) led s =
      { emitted := (gate led { kind := .matchEnd, eid := matchEndEid s.m_id }).1,
        state := st,
        events := (gate led { kind := .matchEnd, eid := matchEndEid s.m_id }).2,
        muted := (gate led { kind := .matchEnd, eid := matchEndEid s.m_id }).1.isSome } := by
  simp [fetch_match_update, h]

theorem fetch_some_live (st : MatchState) (led : List String) (s : Snapshot)
    (h : is_match_over s = false) :
    fetch_match_update (some st) led s =
      { emitted := (afterCascade (hotCascade (resetForSwitch st s) led s).1
          (hotCascade (resetForSwitch st s) led s).2.1 s).1,
        state := { last_over := cur_overs s, last_wickets := s.wickets,
                   toss_done := (resetForSwitch st s).toss_done,
                   last_wicket_over := (hotCascade (resetForSwitch st s) led s).2.2,
                   innings := (resetForSwitch st s).innings },
        events := (afterCascade (hotCascade (resetForSwitch st s) led s).1
          (hotCascade (resetForSwitch st s) led s).2.1 s).2,
        muted := false } := by
  simp [fetch_match_update, h]

/-! ## Freshness: every emission is gated on an id absent from the
incoming ledger and present in the outgoing one -/

theorem wicketBranch_fresh (st1 : MatchState) (led : List String) (s : Snapshot)
    (e : MatchEvent) (h : (wicketBranch st1 led s).1 = some e) :
    e.eid ∉ led ∧ e.eid ∈ (wicketBranch st1 led s).2 := by
  unfold wicketBranch at h ⊢
  by_cases h1 : s.wickets = 3 ∧ cur_overs s ≤ 6 ∧ st1.last_wickets < 3
  · rw [if_pos h1] at h ⊢
    exact gate_fresh _ _ _ h
  · rw [if_neg h1] at h ⊢
    by_cases h2 : 0 < st1.last_wicket_over ∧
        |(cur_balls s : ℤ) - (ballsOfStoredOvers st1.last_wicket_over : ℤ)| ≤ 6 ∧
        1 < s.wickets
    · rw [if_pos h2] at h ⊢
      exact gate_fresh _ _ _ h
    · rw [if_neg h2] at h
      simp at h

theorem wicketBranch_mono (st1 : MatchState) (led : List String) (s : Snapshot)
    (x : String) (h : x ∈ led) : x ∈ (wicketBranch st1 led s).2 := by
  unfold wicketBranch
  split
  · exact gate_mono _ _ _ h
  · split
    · exact gate_mono _ _ _ h
    · exact h

theorem milestoneBranch_fresh (st1 : MatchState) (led : List String) (s : Snapshot)
    (e : MatchEvent) (h : (milestoneBranch st1 led s).1 = some e) :
    e.eid ∉ led ∧ e.eid ∈ (milestoneBranch st1 led s).2 := by
  unfold milestoneBranch at h ⊢
  generalize (milestonesOf s).find? (straddles st1.last_over (cur_overs s)) = x at h ⊢
  cases x with
  | none => simp at h
  | some m =>
      dsimp only at h ⊢
      exact gate_fresh _ _ _ h

theorem milestoneBranch_mono (st1 : MatchState) (led : List String) (s : Snapshot)
    (x : String) (h : x ∈ led) : x ∈ (milestoneBranch st1 led s).2 := by
  unfold milestoneBranch
  split
  · exact gate_mono _ _ _ h
  · exact h

theorem playerMilestoneCheck_fresh (led : List String) (s : Snapshot)
    (e : MatchEvent) (h : (playerMilestoneCheck led s).1 = some e) :
    e.eid ∉ led ∧ e.eid ∈ (playerMilestoneCheck led s).2 := by
  unfold playerMilestoneCheck at h ⊢
  by_cases hk : playerMilestoneKeyword s = true
  · rw [if_pos hk] at h ⊢
    exact gate_fresh _ _ _ h
  · rw [if_neg hk] at h
    simp at h

theorem playerMilestoneCheck_mono (led : List String) (s : Snapshot)
    (x : String) (h : x ∈ led) : x ∈ (playerMilestoneCheck led s).2 := by
  unfold playerMilestoneCheck
  split
  · exact gate_mono _ _ _ h
  · exact h

theorem hotCascade_fresh (st1 : MatchState) (led : List String) (s : Snapshot)
    (e : MatchEvent) (h : (hotCascade st1 led s).1 = some e) :
    e.eid ∉ led ∧ e.eid ∈ (hotCascade st1 led s).2.1 := by
  unfold hotCascade at h ⊢
  by_cases hb : is_innings_break s = true
  · rw [if_pos hb] at h ⊢
    exact gate_fresh _ _ _ h
  · rw [if_neg hb] at h ⊢
    by_cases hr : is_rain_status s = true
    · rw [if_pos hr] at h ⊢
      exact gate_fresh _ _ _ h
    · rw [if_neg hr] at h ⊢
      by_cases hw : st1.last_wickets < s.wickets
      · rw [if_pos hw] at h ⊢
        exact wicketBranch_fresh _ _ _ _ h
      · rw [if_neg hw] at h ⊢
        exact milestoneBranch_fresh _ _ _ _ h

theorem hotCascade_mono (st1 : MatchState) (led : List String) (s : Snapshot)
    (x : String) (h : x ∈ led) : x ∈ (hotCascade st1 led s).2.1 := by
  unfold hotCascade
  split
  · exact gate_mono _ _ _ h
  · split
    · exact gate_mono _ _ _ h
    · split
      · exact wicketBranch_mono _ _ _ _ h
      · exact milestoneBranch_mono _ _ _ _ h

/-- Master freshness lemma: an id emitted by a call was not in the
ledger the call started from, and is in the ledger the call persists. -/
theorem fetch_emits_fresh (row : Option MatchState) (led : List String) (s : Snapshot)
    (e : MatchEvent) (h : (fetch_match_update row led s).emitted = some e) :
    e.eid ∉ led ∧ e.eid ∈ (fetch_match_update row led s).events := by
  cases row with
  | none =>
      rw [fetch_none] at h
      simp [coldStartUpdate] at h
  | some st =>
      by_cases hover : is_match_over s = true
      · rw [fetch_some_over st led s hover] at h ⊢
        exact gate_fresh _ _ _ h
      · rw [fetch_some_live st led s (Bool.not_eq_true _ ▸ hover)] at h ⊢
        dsimp only at h ⊢
        rcases hc : (hotCascade (resetForSwitch st s) led s).1 with _ | e0
        · rw [hc] at h
          unfold afterCascade at h ⊢
          have hfr := playerMilestoneCheck_fresh _ s e h
          refine ⟨fun hmem => hfr.1 (hotCascade_mono _ _ _ _ hmem), hfr.2⟩
        · rw [hc] at h
          unfold afterCascade at h ⊢
          simp only [Option.some.injEq] at h
          subst h
          have := hotCascade_fresh _ _ _ _ hc
          exact this

/-! ## Characterization of the emissions of each branch -/

theorem wicketBranch_emit (st1 : MatchState) (led : List String) (s : Snapshot)
    (e : MatchEvent) (h : (wicketBranch st1 led s).1 = some e) :
    e.kind = .collapse ∨ e.kind = .doubleStrike := by
  unfold wicketBranch at h
  by_cases h1 : s.wickets = 3 ∧ cur_overs s ≤ 6 ∧ st1.last_wickets < 3
  · rw [if_pos h1] at h
    rw [gate_fst_eq _ _ _ h]
    exact Or.inl rfl
  · rw [if_neg h1] at h
    by_cases h2 : 0 < st1.last_wicket_over ∧
        |(cur_balls s : ℤ) - (ballsOfStoredOvers st1.last_wicket_over : ℤ)| ≤ 6 ∧
        1 < s.wickets
    · rw [if_pos h2] at h
      rw [gate_fst_eq _ _ _ h]
      exact Or.inr rfl
    · rw [if_neg h2] at h
      simp at h

theorem milestoneBranch_emit (st1 : MatchState) (led : List String) (s : Snapshot)
    (e : MatchEvent) (h : (milestoneBranch st1 led s).1 = some e) :
    ∃ m, (milestonesOf s).find? (straddles st1.last_over (cur_overs s)) = some m ∧
      e = { kind := .overMilestone m, eid := overMilestoneEid s.m_id m s.runs st1.innings } := by
  unfold milestoneBranch at h
  generalize hx : (milestonesOf s).find? (straddles st1.last_over (cur_overs s)) = x at h
  cases x with
  | none => simp at h
  | some m =>
      dsimp only at h
      exact ⟨m, rfl, gate_fst_eq _ _ _ h⟩

theorem playerMilestoneCheck_emit (led : List String) (s : Snapshot)
    (e : MatchEvent) (h : (playerMilestoneCheck led s).1 = some e) :
    e = { kind := .playerMilestone, eid := playerMilestoneEid s.m_id (event_text s) } := by
  unfold playerMilestoneCheck at h
  by_cases hk : playerMilestoneKeyword s = true
  · rw [if_pos hk] at h
    exact gate_fst_eq _ _ _ h
  · rw [if_neg hk] at h
    simp at h

theorem hotCascade_emit (st1 : MatchState) (led : List String) (s : Snapshot)
    (e : MatchEvent) (h : (hotCascade st1 led s).1 = some e) :
    e.kind = .inningsBreak ∨ e.kind = .weather ∨ e.kind = .collapse ∨
      e.kind = .doubleStrike ∨
      ∃ m, e.kind = .overMilestone m ∧
        (milestonesOf s).find? (straddles st1.last_over (cur_overs s)) = some m := by
  unfold hotCascade at h
  by_cases hb : is_innings_break s = true
  · rw [if_pos hb] at h
    rw [gate_fst_eq _ _ _ h]
    exact Or.inl rfl
  · rw [if_neg hb] at h
    by_cases hr : is_rain_status s = true
    · rw [if_pos hr] at h
      rw [gate_fst_eq _ _ _ h]
      exact Or.inr (Or.inl rfl)
    · rw [if_neg hr] at h
      by_cases hw : st1.last_wickets < s.wickets
      · rw [if_pos hw] at h
        rcases wicketBranch_emit _ _ _ _ h with hk | hk
        · exact Or.inr (Or.inr (Or.inl hk))
        · exact Or.inr (Or.inr (Or.inr (Or.inl hk)))
      · rw [if_neg hw] at h
        obtain ⟨m, hm, he⟩ := milestoneBranch_emit _ _ _ _ h
        exact Or.inr (Or.inr (Or.inr (Or.inr ⟨m, by rw [he], hm⟩)))

/-! ## Reset and straddle lemmas -/

theorem resetForSwitch_pos (st : MatchState) (s : Snapshot)
    (h : cur_overs s < st.last_over - 5) :
    resetForSwitch st s =
      { last_over := 0, last_wickets := 0, toss_done := st.toss_done,
        last_wicket_over := -10, innings := 2 } := by
  unfold resetForSwitch
  rw [if_pos h]

theorem resetForSwitch_neg (st : MatchState) (s : Snapshot)
    (h : ¬ cur_overs s < st.last_over - 5) :
    resetForSwitch st s = st := by
  unfold resetForSwitch
  rw [if_neg h]

theorem resetForSwitch_floor (st : MatchState) (s : Snapshot)
    (h : st.last_over ≤ 5) : resetForSwitch st s = st := by
  apply resetForSwitch_neg
  have h0 := cur_overs_nonneg s
  intro hlt
  linarith

theorem straddles_self (q : ℚ) (m : Nat) : straddles q q m = false := by
  unfold straddles
  by_cases h : q < (m : ℚ)
  · have : ¬ ((m : ℚ) ≤ q) := not_le.mpr h
    simp [this]
  · simp [h]

theorem find?_straddles_self (s : Snapshot) (q : ℚ) :
    (milestonesOf s).find? (straddles q q) = none := by
  apply List.find?_eq_none.mpr
  intro m _
  simp [straddles_self]

/-- `find?` over a sorted ascending list returns the least element
satisfying the test. -/
theorem find?_sorted_min {l : List Nat} (hs : l.Pairwise (· ≤ ·))
    {p : Nat → Bool} {m : Nat} (hf : l.find? p = some m) :
    ∀ x ∈ l, p x = true → m ≤ x := by
  induction l with
  | nil => simp at hf
  | cons a t ih =>
      rcases List.pairwise_cons.mp hs with ⟨ha, ht⟩
      by_cases hpa : p a = true
      · rw [List.find?_cons_of_pos _ hpa] at hf
        injection hf with hf
        subst hf
        intro x hx _
        rcases List.mem_cons.mp hx with rfl | hx
        · exact le_refl x
        · exact ha x hx
      · rw [List.find?_cons_of_neg _ hpa] at hf
        intro x hx hpx
        rcases List.mem_cons.mp hx with rfl | hx
        · exact absurd hpx hpa
        · exact ih ht hf x hx hpx

theorem milestonesOf_sorted (s : Snapshot) : (milestonesOf s).Pairwise (· ≤ ·) := by
  unfold milestonesOf
  by_cases h1 : is_t20 s = true
  · rw [if_pos h1]; decide
  · rw [if_neg h1]
    by_cases h2 : is_odi s = true
    · rw [if_pos h2]; decide
    · rw [if_neg h2]; decide

/-! ## Helper facts for the claim theorems -/

theorem markFired_of_mem (led : List String) (eid : String) (h : eid ∈ led) :
    markFired led eid = led := by
  unfold markFired
  rw [if_pos ((hasFired_iff _ _).mpr h)]

theorem oversMono_anti {q q2 : ℚ} {l : List Snapshot} (hle : q2 ≤ q)
    (h : oversMono q l) : oversMono q2 l := by
  cases l with
  | nil => trivial
  | cons s rest => exact ⟨le_trans hle h.1, h.2⟩

/-- A successful run of the overs pattern parser certifies the regex
shape `^\d+(\.\d)?$`. -/
theorem oversPatternParse_some_pattern (cs : List Char) (w b : Nat)
    (h : oversPatternParse cs = some (w, b)) : OversPattern cs := by
  unfold oversPatternParse at h
  dsimp only at h
  have hsplit : cs.takeWhile Char.isDigit ++ cs.dropWhile Char.isDigit = cs :=
    List.takeWhile_append_dropWhile Char.isDigit cs
  split at h
  · exact absurd h (by simp)
  · rename_i hemp
    have hne : cs.takeWhile Char.isDigit ≠ [] := by
      intro h0
      rw [h0] at hemp
      exact hemp rfl
    have hall : (cs.takeWhile Char.isDigit).all Char.isDigit = true := by
      rw [List.all_eq_true]
      intro x hx
      exact List.mem_takeWhile_imp hx
    split at h
    · rename_i heq
      left
      rw [heq, List.append_nil] at hsplit
      rw [← hsplit]
      exact ⟨hne, hall⟩
    · rename_i d heq
      split at h
      · rename_i hd
        right
        refine ⟨cs.takeWhile Char.isDigit, d, hne, hall, hd, ?_⟩
        rw [heq] at hsplit
        exact hsplit.symm
      · exact absurd h (by simp)
    · exact absurd h (by simp)

theorem gate_fire (led : List String) (e : MatchEvent) (h : hasFired led e.eid = false) :
    gate led e = (some e, led ++ [e.eid]) := by
  unfold gate
  rw [if_neg (by simp [h])]

theorem mem_ite_markFired (c : Prop) [Decidable c] (led : List String) (eid x : String)
    (h : x ∈ led) : x ∈ (if c then markFired led eid else led) := by
  split
  · exact markFired_mono _ _ _ h
  · exact h

/-- After a cold start wrote the snapshot into the state row and
seeded the match-end and innings-break ids, a second call on the same
snapshot can emit at most a weather or player-milestone event. -/
theorem second_call_same_snapshot (stW : MatchState) (led2 : List String) (s : Snapshot)
    (hlo : stW.last_over = cur_overs s) (hwk : stW.last_wickets = s.wickets)
    (hend : is_match_over s = true → matchEndEid s.m_id ∈ led2)
    (hbrk : is_innings_break s = true → inningsBreakEid s.m_id s.runs ∈ led2) :
    ∀ e, (fetch_match_update (some stW) led2 s).emitted = some e →
      e.kind = .weather ∨ e.kind = .playerMilestone := by
  intro e he
  have hnr : ¬ cur_overs s < stW.last_over - 5 := by
    rw [hlo]
    intro hcon
    linarith
  have hst : resetForSwitch stW s = stW := resetForSwitch_neg _ _ hnr
  by_cases hover : is_match_over s = true
  · rw [fetch_some_over _ _ _ hover] at he
    dsimp only at he
    rw [gate_none_of_mem _ _ (hend hover)] at he
    exact absurd he (by simp)
  · have hover2 : is_match_over s = false := by
      revert hover
      cases is_match_over s <;> simp
    rw [fetch_some_live _ _ _ hover2] at he
    dsimp only at he
    rw [hst] at he
    unfold hotCascade at he
    by_cases hbr : is_innings_break s = true
    · rw [if_pos hbr] at he
      dsimp only at he
      rw [gate_none_of_mem _ _ (hbrk hbr)] at he
      unfold afterCascade at he
      dsimp only at he
      rw [playerMilestoneCheck_emit _ _ _ he]
      exact Or.inr rfl
    · rw [if_neg hbr] at he
      by_cases hrn : is_rain_status s = true
      · rw [if_pos hrn] at he
        dsimp only at he
        rcases hg : (gate led2 { kind := .weather, eid := rainEid s.m_id s.status_text }).1
          with _ | e0
        · rw [hg] at he
          unfold afterCascade at he
          dsimp only at he
          rw [playerMilestoneCheck_emit _ _ _ he]
          exact Or.inr rfl
        · rw [hg] at he
          unfold afterCascade at he
          dsimp only at he
          injection he with he2
          rw [← he2, gate_fst_eq _ _ _ hg]
          exact Or.inl rfl
      · rw [if_neg hrn] at he
        have hw : ¬ stW.last_wickets < s.wickets := by
          rw [hwk]
          exact lt_irrefl _
        rw [if_neg hw] at he
        dsimp only at he
        unfold milestoneBranch at he
        rw [hlo, find?_straddles_self s] at he
        dsimp only at he
        unfold afterCascade at he
        dsimp only at he
        rw [playerMilestoneCheck_emit _ _ _ he]
        exact Or.inr rfl

/-- Within a phase that has already reached threshold `m` and whose
progress does not go backwards, one call never emits the milestone for
`m`, and the stored progress stays between `m` and the snapshot
progress. -/
theorem no_milestone_below (st : MatchState) (led : List String) (s : Snapshot) (m : Nat)
    (h1 : (m : ℚ) ≤ st.last_over) (h2 : st.last_over ≤ cur_overs s) :
    (∀ e, (fetch_match_update (some st) led s).emitted = some e →
      e.kind ≠ .overMilestone m) ∧
    (m : ℚ) ≤ (fetch_match_update (some st) led s).state.last_over ∧
    (fetch_match_update (some st) led s).state.last_over ≤ cur_overs s := by
  have hnr : ¬ cur_overs s < st.last_over - 5 := by
    intro hcon
    linarith
  have hst : resetForSwitch st s = st := resetForSwitch_neg _ _ hnr
  by_cases hover : is_match_over s = true
  · rw [fetch_some_over _ _ _ hover]
    dsimp only
    refine ⟨?_, h1, h2⟩
    intro e he
    rw [gate_fst_eq _ _ _ he]
    simp
  · have hover2 : is_match_over s = false := by
      revert hover
      cases is_match_over s <;> simp
    rw [fetch_some_live _ _ _ hover2]
    dsimp only
    rw [hst]
    refine ⟨?_, le_trans h1 h2, le_refl _⟩
    intro e he
    rcases hc : (hotCascade st led s).1 with _ | e0
    · rw [hc] at he
      unfold afterCascade at he
      dsimp only at he
      rw [playerMilestoneCheck_emit _ _ _ he]
      simp
    · rw [hc] at he
      unfold afterCascade at he
      dsimp only at he
      injection he with he2
      rw [← he2]
      rcases hotCascade_emit _ _ _ _ hc with hk | hk | hk | hk | ⟨m2, hk, hm2⟩
      · rw [hk]; simp
      · rw [hk]; simp
      · rw [hk]; simp
      · rw [hk]; simp
      · rw [hk]
        have hp := List.find?_some hm2
        have hlt : st.last_over < (m2 : ℚ) := by
          have := (Bool.and_eq_true _ _).mp hp
          exact of_decide_eq_true this.1
        have : m < m2 := by
          by_contra hcon
          push_neg at hcon
          have : (m2 : ℚ) ≤ (m : ℚ) := by exact_mod_cast hcon
          linarith
        intro hkind
        injection hkind with hmm
        omega

/-! ## Claim theorems -/

/-- Claim C7: the progress-unit converter maps "10.3" to 63, "0.5" to
5, the empty string to 0, "abc" to 0, and "10.9" to 65 (the fractional
digit is clamped into [0,5]); every input whose stripped text does not
match the overs pattern yields 0. -/
theorem C7_progress_conversion :
    overs_to_balls "10.3" = 63 ∧ overs_to_balls "0.5" = 5 ∧ overs_to_balls "" = 0 ∧
    overs_to_balls "abc" = 0 ∧ overs_to_balls "10.9" = 65 ∧
    ∀ s : String, ¬ OversPattern (stripChars s.data) → overs_to_balls s = 0 := by
  refine ⟨by decide, by decide, by decide, by decide, by decide, ?_⟩
  intro s hp
  unfold overs_to_balls
  by_cases hs : s = ""
  · rw [if_pos hs]
  · rw [if_neg hs]
    rcases hparse : oversPatternParse (stripChars s.data) with _ | wb
    · rfl
    · obtain ⟨w, b⟩ := wb
      exact absurd (oversPatternParse_some_pattern _ w b hparse) hp

/-- Claim C7 witness: "abc" is malformed and converts to 0. -/
theorem C7_witness :
    ¬ OversPattern (stripChars "abc".data) ∧ overs_to_balls "abc" = 0 :=
  have hp : ¬ OversPattern (stripChars "abc".data) := by
    rintro (⟨hne, hall⟩ | ⟨ds, d, hne, hall, hd, heq⟩)
    · exact absurd hall (by decide)
    · have hmem : '.' ∈ stripChars "abc".data := by
        rw [heq]
        exact List.mem_append_right ds (List.mem_cons_self '.' [d])
      exact absurd hmem (by decide)
  ⟨hp, C7_progress_conversion.2.2.2.2.2 "abc" hp⟩

/-- Claim C8: marking an already-present id in the events ledger is a
no-op that raises no error, insertion is idempotent, and the contents
after a mark are exactly the old contents plus the id. -/
theorem C8_ledger_idempotent (led : List String) (eid : String) :
    (hasFired led eid = true → markFired led eid = led) ∧
    (∀ x, x ∈ markFired led eid ↔ x ∈ led ∨ x = eid) ∧
    markFired (markFired led eid) eid = markFired led eid := by
  refine ⟨?_, mem_markFired led eid, markFired_of_mem _ _ (self_mem_markFired led eid)⟩
  intro h
  exact markFired_of_mem _ _ ((hasFired_iff _ _).mp h)

/-- Claim C8 witness: marking an id already present leaves the ledger
unchanged, and membership after a mark is as specified. -/
theorem C8_witness :
    hasFired ["a"] "a" = true ∧ markFired ["a"] "a" = ["a"] ∧
      ("b" ∈ markFired ["a"] "b" ↔ "b" ∈ ["a"] ∨ "b" = "b") :=
  ⟨by decide, (C8_ledger_idempotent ["a"] "a").1 (by decide),
    (C8_ledger_idempotent ["a"] "b").2.1 "b"⟩

/-- Claim C1 counterexample: a non-cold state and snapshot for which
the first call emits (a double strike) and the identical second call,
with the state and ledger carried over, also emits (the player
milestone whose evaluation the first emission skipped).  The claim
says the second call emits nothing. -/
theorem C1_counterexample :
    (fetch_match_update (some c1_state) [] c1_snapshot).emitted.isSome = true ∧
    (fetch_match_update (some (fetch_match_update (some c1_state) [] c1_snapshot).state)
        (fetch_match_update (some c1_state) [] c1_snapshot).events
        c1_snapshot).emitted.isSome = true := by
  with_unfolding_all decide

/-- Claim C1 (amended): processing the same snapshot twice in
succession never emits the same event identifier twice — the second
call can emit only an event whose id the first call did not emit (in
the code, a lower-priority player milestone skipped by the first
emission); re-delivery never produces a duplicate emitted event. -/
theorem C1_no_duplicate_emission (st : MatchState) (led : List String) (s : Snapshot)
    (e1 e2 : MatchEvent)
    (h1 : (fetch_match_update (some st) led s).emitted = some e1)
    (h2 : (fetch_match_update (some (fetch_match_update (some st) led s).state)
        (fetch_match_update (some st) led s).events s).emitted = some e2) :
    e1.eid ≠ e2.eid := by
  obtain ⟨_, hin⟩ := fetch_emits_fresh _ _ _ _ h1
  obtain ⟨hout, _⟩ := fetch_emits_fresh _ _ _ _ h2
  intro heq
  rw [heq] at hin
  exact hout hin

/-- Claim C1 witness: at the counterexample input the two emitted
events carry different identifiers. -/
theorem C1_witness :
    MatchEvent.eid ⟨.doubleStrike, doubleStrikeEid "m1" 2⟩ ≠
      MatchEvent.eid ⟨.playerMilestone, playerMilestoneEid "m1" (event_text c1_snapshot)⟩ :=
  C1_no_duplicate_emission c1_state [] c1_snapshot _ _
    (by with_unfolding_all decide) (by with_unfolding_all rfl)

/-- Claim C3 counterexample: a non-cold call with a new wicket whose
status line is an innings break; the stored last-wicket progress is
left at its old value 2 instead of being updated to the current
progress 9, because the innings-break branch preempts the wicket
branch. -/
theorem C3_counterexample :
    c3_state.last_wickets < c3_snapshot.wickets ∧
    (fetch_match_update (some c3_state) [] c3_snapshot).state.last_wicket_over = 2 ∧
    (fetch_match_update (some c3_state) [] c3_snapshot).state.last_wicket_over ≠
      cur_overs c3_snapshot := by
  with_unfolding_all decide

/-- Claim C3 (amended): on a non-cold call in which the wickets exceed
the stored last count, the stored last-wicket progress is updated to
the current progress regardless of whether a collapse or double-strike
event fires, provided the call reaches the wicket branch — that is,
no match-end, innings-break, or weather condition holds. -/
theorem C3_wicket_progress_update (st : MatchState) (led : List String) (s : Snapshot)
    (hov : is_match_over s = false) (hbr : is_innings_break s = false)
    (hrn : is_rain_status s = false)
    (hwk : (resetForSwitch st s).last_wickets < s.wickets) :
    (fetch_match_update (some st) led s).state.last_wicket_over = cur_overs s := by
  rw [fetch_some_live _ _ _ hov]
  dsimp only
  unfold hotCascade
  rw [if_neg (by simp [hbr]), if_neg (by simp [hrn]), if_pos hwk]

/-- Claim C3 witness: a second wicket with no special status updates
the stored last-wicket progress to the snapshot progress. -/
theorem C3_witness :
    (fetch_match_update (some c3w_state) [] c3w_snapshot).state.last_wicket_over =
      cur_overs c3w_snapshot :=
  C3_wicket_progress_update c3w_state [] c3w_snapshot (by decide) (by decide) (by decide)
    (by with_unfolding_all decide)

/-- Claim C2: a cold-start call emits nothing, seeds the ledger with
the match-end, innings-break and collapse ids that already hold of the
snapshot, writes the snapshot into the state row, and a subsequent
non-cold call on the same snapshot emits no event for those seeded
conditions (at most a weather or player-milestone event, which the
cold path does not seed). -/
theorem C2_cold_start_silence (s : Snapshot) (led : List String) :
    (fetch_match_update none led s).emitted = none ∧
    (is_match_over s = true → matchEndEid s.m_id ∈ (fetch_match_update none led s).events) ∧
    (is_innings_break s = true →
      inningsBreakEid s.m_id s.runs ∈ (fetch_match_update none led s).events) ∧
    (3 ≤ s.wickets → collapseEid s.m_id ∈ (fetch_match_update none led s).events) ∧
    (fetch_match_update none led s).state =
      { last_over := cur_overs s, last_wickets := s.wickets, toss_done := 0,
        last_wicket_over := cur_overs s, innings := 1 } ∧
    (∀ e, (fetch_match_update (some (fetch_match_update none led s).state)
        (fetch_match_update none led s).events s).emitted = some e →
      e.kind = .weather ∨ e.kind = .playerMilestone) := by
  have hreset : resetForSwitch defaultState s = defaultState :=
    resetForSwitch_floor _ _ (by norm_num [defaultState])
  rw [fetch_none, hreset]
  have hemit : (coldStartUpdate defaultState led s).emitted = none := rfl
  have hstate : (coldStartUpdate defaultState led s).state =
      { last_over := cur_overs s, last_wickets := s.wickets, toss_done := 0,
        last_wicket_over := cur_overs s, innings := 1 } := rfl
  have hmend : is_match_over s = true →
      matchEndEid s.m_id ∈ (coldStartUpdate defaultState led s).events := by
    intro hov
    show matchEndEid s.m_id ∈
      (if 3 ≤ s.wickets then
        markFired (if is_innings_break s then
            markFired (if is_match_over s then markFired led (matchEndEid s.m_id) else led)
              (inningsBreakEid s.m_id s.runs)
          else if is_match_over s then markFired led (matchEndEid s.m_id) else led)
          (collapseEid s.m_id)
      else if is_innings_break s then
        markFired (if is_match_over s then markFired led (matchEndEid s.m_id) else led)
          (inningsBreakEid s.m_id s.runs)
      else if is_match_over s then markFired led (matchEndEid s.m_id) else led)
    apply mem_ite_markFired
    apply mem_ite_markFired
    rw [if_pos hov]
    exact self_mem_markFired _ _
  have hmbrk : is_innings_break s = true →
      inningsBreakEid s.m_id s.runs ∈ (coldStartUpdate defaultState led s).events := by
    intro hbr
    show inningsBreakEid s.m_id s.runs ∈
      (if 3 ≤ s.wickets then
        markFired (if is_innings_break s then
            markFired (if is_match_over s then markFired led (matchEndEid s.m_id) else led)
              (inningsBreakEid s.m_id s.runs)
          else if is_match_over s then markFired led (matchEndEid s.m_id) else led)
          (collapseEid s.m_id)
      else if is_innings_break s then
        markFired (if is_match_over s then markFired led (matchEndEid s.m_id) else led)
          (inningsBreakEid s.m_id s.runs)
      else if is_match_over s then markFired led (matchEndEid s.m_id) else led)
    apply mem_ite_markFired
    rw [if_pos hbr]
    exact self_mem_markFired _ _
  have hmcol : 3 ≤ s.wickets →
      collapseEid s.m_id ∈ (coldStartUpdate defaultState led s).events := by
    intro hwk
    show collapseEid s.m_id ∈
      (if 3 ≤ s.wickets then
        markFired (if is_innings_break s then
            markFired (if is_match_over s then markFired led (matchEndEid s.m_id) else led)
              (inningsBreakEid s.m_id s.runs)
          else if is_match_over s then markFired led (matchEndEid s.m_id) else led)
          (collapseEid s.m_id)
      else if is_innings_break s then
        markFired (if is_match_over s then markFired led (matchEndEid s.m_id) else led)
          (inningsBreakEid s.m_id s.runs)
      else if is_match_over s then markFired led (matchEndEid s.m_id) else led)
    rw [if_pos hwk]
    exact self_mem_markFired _ _
  refine ⟨hemit, hmend, hmbrk, hmcol, hstate, ?_⟩
  intro e he
  rw [hstate] at he
  exact second_call_same_snapshot _ _ s rfl rfl hmend hmbrk e he

/-- Claim C2 witness: a cold start at wickets 5 and overs 12 of a T20
emits nothing and seeds the collapse id. -/
theorem C2_witness :
    3 ≤ c2_snapshot.wickets ∧
    collapseEid "w2" ∈ (fetch_match_update none [] c2_snapshot).events ∧
    (fetch_match_update none [] c2_snapshot).emitted = none :=
  ⟨by decide, (C2_cold_start_silence c2_snapshot []).2.2.2.1 (by decide),
    (C2_cold_start_silence c2_snapshot []).1⟩

/-- Claim C4 counterexample: a snapshot exactly five whole units below
the stored progress does not trigger the reset: the stored
last-wicket progress stays 4 (not the sentinel) and the phase counter
stays 1 (not incremented), contradicting the claim for the
at-least-five trigger. -/
theorem C4_counterexample :
    cur_overs c4_snapshot = c4_state.last_over - 5 ∧
    (fetch_match_update (some c4_state) [] c4_snapshot).state.innings = 1 ∧
    (fetch_match_update (some c4_state) [] c4_snapshot).state.innings ≠ 2 ∧
    (fetch_match_update (some c4_state) [] c4_snapshot).state.last_wicket_over = 4 ∧
    (fetch_match_update (some c4_state) [] c4_snapshot).state.last_wicket_over ≠ -10 := by
  with_unfolding_all decide

/-- Claim C4 (amended): on a non-cold call whose progress is strictly
more than 5 whole units below the stored progress, the state is reset
(secondary count 0, change progress at the sentinel, phase counter set
to 2, not incremented) before classification: the call emits, marks
and mutes exactly as a call from the reset state, and when the call is
not on the match-end path (which writes no state) the whole result,
including the persisted phase value 2, equals that of the reset
state. -/
theorem C4_phase_reset (st : MatchState) (led : List String) (s : Snapshot)
    (h : cur_overs s < st.last_over - 5) :
    ((fetch_match_update (some st) led s).emitted =
        (fetch_match_update (some (innings_reset st)) led s).emitted ∧
      (fetch_match_update (some st) led s).events =
        (fetch_match_update (some (innings_reset st)) led s).events ∧
      (fetch_match_update (some st) led s).muted =
        (fetch_match_update (some (innings_reset st)) led s).muted) ∧
    (is_match_over s = false →
      fetch_match_update (some st) led s =
        fetch_match_update (some (innings_reset st)) led s ∧
      (fetch_match_update (some st) led s).state.innings = 2) := by
  have hr1 : resetForSwitch st s = innings_reset st := by
    rw [resetForSwitch_pos st s h]
    rfl
  have hr2 : resetForSwitch (innings_reset st) s = innings_reset st :=
    resetForSwitch_floor _ _ (by norm_num [innings_reset])
  by_cases hover : is_match_over s = true
  · constructor
    · rw [fetch_some_over _ _ _ hover, fetch_some_over _ _ _ hover]
      exact ⟨rfl, rfl, rfl⟩
    · intro hov2
      exact absurd (hover.symm.trans hov2) (by simp)
  · have hover2 : is_match_over s = false := by
      revert hover
      cases is_match_over s <;> simp
    have hfeq : fetch_match_update (some st) led s =
        fetch_match_update (some (innings_reset st)) led s := by
      rw [fetch_some_live _ _ _ hover2, fetch_some_live _ _ _ hover2, hr1, hr2]
    refine ⟨by rw [hfeq]; exact ⟨rfl, rfl, rfl⟩, fun _ => ⟨hfeq, ?_⟩⟩
    rw [fetch_some_live _ _ _ hover2]
    dsimp only
    rw [hr1]
    rfl

/-- Claim C4 witness: a snapshot six units below the stored progress
behaves exactly as from the reset state and persists phase 2. -/
theorem C4_witness :
    fetch_match_update (some c4_state) [] c4w_snapshot =
      fetch_match_update (some (innings_reset c4_state)) [] c4w_snapshot ∧
    (fetch_match_update (some c4_state) [] c4w_snapshot).state.innings = 2 :=
  (C4_phase_reset c4_state [] c4w_snapshot (by with_unfolding_all decide)).2 (by decide)

/-- Claim C5: a non-cold call whose snapshot satisfies both the
match-end condition and the progress-milestone straddle yields only
the match-end event — nothing else can be emitted, at most one event
per call, and the match-end event itself fires whenever its id is
unfired. -/
theorem C5_matchEnd_priority (st : MatchState) (led : List String) (s : Snapshot)
    (hover : is_match_over s = true)
    (hm : ∃ m ∈ milestonesOf s, straddles st.last_over (cur_overs s) m = true) :
    ((fetch_match_update (some st) led s).emitted = none ∨
      (fetch_match_update (some st) led s).emitted =
        some { kind := .matchEnd, eid := matchEndEid s.m_id }) ∧
    (hasFired led (matchEndEid s.m_id) = false →
      (fetch_match_update (some st) led s).emitted =
        some { kind := .matchEnd, eid := matchEndEid s.m_id }) := by
  rw [fetch_some_over _ _ _ hover]
  dsimp only
  constructor
  · rcases hg : (gate led { kind := .matchEnd, eid := matchEndEid s.m_id }).1 with _ | e0
    · exact Or.inl rfl
    · right
      rw [gate_fst_eq _ _ _ hg]
  · intro hf
    rw [gate_fire led _ (by exact hf)]

/-- Claim C5 witness: a result status with a straddled threshold emits
exactly the match-end event. -/
theorem C5_witness :
    (fetch_match_update (some c5_state) [] c5_snapshot).emitted =
      some { kind := .matchEnd, eid := matchEndEid "m5" } :=
  (C5_matchEnd_priority c5_state [] c5_snapshot (by decide)
    ⟨10, by decide, by with_unfolding_all decide⟩).2 (by decide)

/-- Claim C6 counterexample: a non-cold call whose stored and current
progress straddle both the 10 and the 20 threshold of the long-format
list emits no milestone at all — a simultaneous wicket increase takes
the wicket branch and the milestone branch is never reached, so the
claim that exactly one milestone fires on every such call fails. -/
theorem C6_counterexample :
    straddles c6_state.last_over (cur_overs c6_snapshot) 10 = true ∧
    straddles c6_state.last_over (cur_overs c6_snapshot) 20 = true ∧
    10 ∈ milestonesOf c6_snapshot ∧ 20 ∈ milestonesOf c6_snapshot ∧
    c6_state.last_wickets < c6_snapshot.wickets ∧
    (fetch_match_update (some c6_state) [] c6_snapshot).emitted = none := by
  with_unfolding_all decide

/-- Claim C6 (amended): when a non-cold call actually reaches the
milestone branch (no result, break or weather status and no wicket
increase) and the format list has a first straddled threshold `m`
whose id is unfired, exactly that event fires, and `m` is the smallest
straddled threshold; moreover a threshold already at or below the
stored progress is never emitted on that call or any later call of a
forward-moving poll stream — skipped thresholds are never backfilled
within a phase. -/
theorem C6_milestone_skip_not_backfill :
    (∀ (st : MatchState) (led : List String) (s : Snapshot) (m : Nat),
      is_match_over s = false → is_innings_break s = false → is_rain_status s = false →
      ¬ (resetForSwitch st s).last_wickets < s.wickets →
      (milestonesOf s).find? (straddles (resetForSwitch st s).last_over (cur_overs s)) =
        some m →
      hasFired led (overMilestoneEid s.m_id m s.runs (resetForSwitch st s).innings) = false →
      (fetch_match_update (some st) led s).emitted =
        some { kind := .overMilestone m,
               eid := overMilestoneEid s.m_id m s.runs (resetForSwitch st s).innings } ∧
      (∀ m2 ∈ milestonesOf s,
        straddles (resetForSwitch st s).last_over (cur_overs s) m2 = true → m ≤ m2)) ∧
    (∀ (st : MatchState) (led : List String) (snaps : List Snapshot) (m : Nat),
      (m : ℚ) ≤ st.last_over → oversMono st.last_over snaps →
      ∀ ev ∈ runCalls (some st) led snaps, ∀ e, ev = some e →
        e.kind ≠ .overMilestone m) := by
  constructor
  · intro st led s m hov hbr hrn hw hf hnf
    constructor
    · rw [fetch_some_live _ _ _ hov]
      dsimp only
      unfold hotCascade
      rw [if_neg (by simp [hbr]), if_neg (by simp [hrn]), if_neg hw]
      dsimp only
      unfold milestoneBranch
      rw [hf]
      dsimp only
      rw [gate_fire led _ (by exact hnf)]
      rfl
    · intro m2 hm2 hs2
      exact find?_sorted_min (milestonesOf_sorted s) hf m2 hm2 hs2
  · intro st led snaps
    induction snaps generalizing st led with
    | nil =>
        intro m _ _ ev hev
        simp [runCalls] at hev
    | cons s rest ih =>
        intro m h1 hmono ev hev e heq
        obtain ⟨hq, hrest⟩ := hmono
        have hbound := no_milestone_below st led s m h1 hq
        rw [runCalls] at hev
        rcases List.mem_cons.mp hev with rfl | hev2
        · exact hbound.1 e heq
        · exact ih _ _ m hbound.2.1 (oversMono_anti hbound.2.2 hrest) ev hev2 e heq

/-- Claim C6 witness: the same jump without a wicket fires exactly the
smallest straddled threshold, and a stream that already passed 20
never re-emits the 10 milestone. -/
theorem C6_witness :
    ((fetch_match_update (some c6a_state) [] c6a_snapshot).emitted =
      some { kind := .overMilestone 10,
             eid := overMilestoneEid "m6a" 10 44
               (resetForSwitch c6a_state c6a_snapshot).innings }) ∧
    (∀ ev ∈ runCalls (some c6b_state) [] [c6b_snapshot], ∀ e, ev = some e →
      e.kind ≠ .overMilestone 10) := by
  constructor
  · exact (C6_milestone_skip_not_backfill.1 c6a_state [] c6a_snapshot 10 (by decide)
      (by decide) (by decide) (by with_unfolding_all decide)
      (by with_unfolding_all decide) (by decide)).1
  · exact C6_milestone_skip_not_backfill.2 c6b_state [] [c6b_snapshot] 10
      (by with_unfolding_all decide) ⟨by with_unfolding_all decide, trivial⟩

/-- Claim C9 counterexample: a rain status line makes the call emit a
weather event, a kind outside the closed set the specification lists
for emitted events. -/
theorem C9_counterexample :
    (fetch_match_update (some c9_state) [] c9_snapshot).emitted.map MatchEvent.kind =
      some .weather ∧ ¬ specListedKind .weather := by
  constructor
  · with_unfolding_all decide
  · rintro (h | h | h | h | ⟨m, h⟩ | h | h) <;> simp at h

/-- Claim C9 (amended): every event emitted by `fetch_match_update`
has one of the kinds match-end, innings-break, weather, collapse,
double-strike, over-milestone or player-milestone; in particular the
toss kind is never emitted by this function. -/
theorem C9_emitted_kinds (row : Option MatchState) (led : List String) (s : Snapshot)
    (e : MatchEvent) (h : (fetch_match_update row led s).emitted = some e) :
    (e.kind = .matchEnd ∨ e.kind = .inningsBreak ∨ e.kind = .weather ∨
      e.kind = .collapse ∨ e.kind = .doubleStrike ∨
      (∃ m, e.kind = .overMilestone m) ∨ e.kind = .playerMilestone) ∧
    e.kind ≠ .toss := by
  cases row with
  | none =>
      rw [fetch_none] at h
      exact absurd h (by simp [coldStartUpdate])
  | some st =>
      by_cases hover : is_match_over s = true
      · rw [fetch_some_over _ _ _ hover] at h
        dsimp only at h
        rw [gate_fst_eq _ _ _ h]
        exact ⟨Or.inl rfl, by simp⟩
      · have hover2 : is_match_over s = false := by
          revert hover
          cases is_match_over s <;> simp
        rw [fetch_some_live _ _ _ hover2] at h
        dsimp only at h
        rcases hc : (hotCascade (resetForSwitch st s) led s).1 with _ | e0
        · rw [hc] at h
          unfold afterCascade at h
          dsimp only at h
          rw [playerMilestoneCheck_emit _ _ _ h]
          refine ⟨Or.inr (Or.inr (Or.inr (Or.inr (Or.inr (Or.inr rfl))))), by simp⟩
        · rw [hc] at h
          unfold afterCascade at h
          dsimp only at h
          injection h with h2
          rw [← h2]
          rcases hotCascade_emit _ _ _ _ hc with hk | hk | hk | hk | ⟨m, hk, _⟩
          · rw [hk]
            exact ⟨Or.inr (Or.inl rfl), by simp⟩
          · rw [hk]
            exact ⟨Or.inr (Or.inr (Or.inl rfl)), by simp⟩
          · rw [hk]
            exact ⟨Or.inr (Or.inr (Or.inr (Or.inl rfl))), by simp⟩
          · rw [hk]
            exact ⟨Or.inr (Or.inr (Or.inr (Or.inr (Or.inl rfl)))), by simp⟩
          · rw [hk]
            exact ⟨Or.inr (Or.inr (Or.inr (Or.inr (Or.inr (Or.inl ⟨m, rfl⟩))))), by simp⟩

/-- Claim C9 witness: the weather emission of the counterexample input
indeed has one of the kinds of the amended closed set. -/
theorem C9_witness :
    (MatchEvent.kind ⟨.weather, rainEid "m9" "Rain stopped play"⟩ = .matchEnd ∨
      MatchEvent.kind ⟨.weather, rainEid "m9" "Rain stopped play"⟩ = .inningsBreak ∨
      MatchEvent.kind ⟨.weather, rainEid "m9" "Rain stopped play"⟩ = .weather ∨
      MatchEvent.kind ⟨.weather, rainEid "m9" "Rain stopped play"⟩ = .collapse ∨
      MatchEvent.kind ⟨.weather, rainEid "m9" "Rain stopped play"⟩ = .doubleStrike ∨
      (∃ m, MatchEvent.kind ⟨.weather, rainEid "m9" "Rain stopped play"⟩ =
        .overMilestone m) ∨
      MatchEvent.kind ⟨.weather, rainEid "m9" "Rain stopped play"⟩ = .playerMilestone) ∧
    MatchEvent.kind ⟨.weather, rainEid "m9" "Rain stopped play"⟩ ≠ .toss :=
  C9_emitted_kinds (some c9_state) [] c9_snapshot _ (by with_unfolding_all rfl)

/-- Claim C10: the collapse id carries no phase counter (unlike the
over-milestone id), so after a collapse fired in the first innings, a
genuine second-innings collapse satisfying the same condition emits
nothing: the sequence below fires the collapse once, then the phase
switch resets the state, the collapse condition holds again, and the
call emits no event. -/
theorem C10_phase_blind_collapse_id :
    (fetch_match_update (some c10_state) [] c10_snapshotA).emitted =
      some { kind := .collapse, eid := collapseEid "mx" } ∧
    (resetForSwitch (fetch_match_update (some c10_state) [] c10_snapshotA).state
        c10_snapshotC).innings = 2 ∧
    c10_snapshotC.wickets = 3 ∧ cur_overs c10_snapshotC ≤ 6 ∧
    (resetForSwitch (fetch_match_update (some c10_state) [] c10_snapshotA).state
        c10_snapshotC).last_wickets < 3 ∧
    (fetch_match_update
        (some (fetch_match_update (some c10_state) [] c10_snapshotA).state)
        (fetch_match_update (some c10_state) [] c10_snapshotA).events
        c10_snapshotC).emitted = none ∧
    collapseEid "mx" = "mx_COLLAPSE_3WK" ∧
    doubleStrikeEid "mx" 2 = "mx_DOUBLE_STRIKE_2" ∧
    overMilestoneEid "mx" 10 30 1 ≠ overMilestoneEid "mx" 10 30 2 := by
  with_unfolding_all decide

end CricketBot
